import Mathlib

/-!
Verification development for the Utils repository.

The repository has two independent pieces:

* `src/database/__init__.py` — `SSHTunnelManager`, `RedisConnector`
  (the spec's CacheSession) and `DBConnector` (the spec's SqlSession):
  optional SSH tunnel, backend client connect, liveness probe,
  query/update operations, and teardown.
* `src/pymysql/database.py` — a standalone `MySQL` helper whose
  `execute` opens a fresh connection per call.

The Python code is embedded shallowly: each class becomes a state
structure, each method a pure function from the state and a *world*
record (the outcomes the external libraries would produce: tunnel
start result, client connect result, probe result, close failures, …)
to the new state, a trace of observable events, and an optional
propagated exception.  Exceptions are an inductive of the Python
exception classes the code raises or catches; a method's `except`
clause is translated by a predicate picking out exactly the classes
listed in the source.
-/

/-- Exception classes raised or caught by the source code.  `connectionError`
is Python's builtin `ConnectionError`, `valueError` the builtin `ValueError`;
the remaining constructors stand for the library exception hierarchies named
in the source (`pymysql.Error`, `psycopg2.Error`, `redis.RedisError`,
`BaseSSHTunnelForwarderError`, `paramiko.ssh_exception.SSHException`), plus
`attributeError` for `AttributeError` and `otherError` for any other
`Exception`. -/
inductive PyExn where
  | connectionError (msg : String)
  | valueError (msg : String)
  | pymysqlError (msg : String)
  | psycopg2Error (msg : String)
  | redisError (msg : String)
  | tunnelForwarderError (msg : String)
  | sshException (msg : String)
  | attributeError (msg : String)
  | otherError (msg : String)
deriving DecidableEq, Repr

/-- Observable events: each constructor marks one call into an external
library (network activity) or, for `disconnectCall`, one invocation of a
connector's `disconnect` method. -/
inductive Ev where
  | tunnelStart
  | tunnelStop
  | clientConnect
  | probe
  | connClose
  | cursorClose
  | disconnectCall
  | cursorExec
  | commit
  | rollback
  | fetch
deriving DecidableEq, Repr

/-- Result rows, as the field-name/value mappings the dict cursors return. -/
abbrev Row := List (String × String)

/-- State of an `SSHTunnelForwarder` object: whether the forward is active. -/
structure Tunnel where
  is_active : Bool
deriving DecidableEq, Repr

/-- Outcome of `_setup_ssh_tunnel`: success, a failure while loading the
private key (raised before `self.tunnel` is assigned), or a failure in
`tunnel.start()` (raised after `self.tunnel` is assigned). -/
inductive TunnelOutcome where
  | ok
  | keyErr (e : PyExn)
  | startErr (e : PyExn)
deriving DecidableEq, Repr

/-- `SSHTunnelManager._setup_ssh_tunnel`: on success the forwarder is
assigned and started; on a key-loading failure the field is untouched; on a
`start()` failure the forwarder object is retained but inactive.  The raised
exception, if any, is returned for the caller's `try` block. -/
def setupSshTunnel (t : Option Tunnel) (o : TunnelOutcome) :
    Option Tunnel × List Ev × Option PyExn :=
  match o with
  | .ok => (some ⟨true⟩, [Ev.tunnelStart], none)
  | .keyErr e => (t, [], some e)
  | .startErr e => (some ⟨false⟩, [Ev.tunnelStart], some e)

/-- `SSHTunnelManager._close_ssh_tunnel`: stops the tunnel only when one is
present and active; a failure of `stop()` (the `stopFail` oracle) is caught
and logged, never raised, and the field is cleared afterwards either way.
An inactive tunnel object is retained. -/
def closeSshTunnel (t : Option Tunnel) (stopFail : Option PyExn) :
    Option Tunnel × List Ev :=
  match t with
  | some tn =>
    if tn.is_active then
      match stopFail with
      | some _ => (none, [Ev.tunnelStop])
      | none => (none, [Ev.tunnelStop])
    else (some tn, [])
  | none => (none, [])

/-- Configuration mapping handed to the constructors; `none` models an
absent key.  Field names follow the Python config keys. -/
structure PyDict where
  db_type : Option String := none
  db_host : Option String := none
  db_port : Option Nat := none
  db_user : Option String := none
  db_password : Option String := none
  db_name : Option String := none
  redis_host : Option String := none
  redis_port : Option Nat := none
  redis_db : Option Nat := none
  redis_password : Option String := none
  ssh_host : Option String := none
  ssh_port : Option Nat := none
  ssh_username : Option String := none
  ssh_password : Option String := none
deriving DecidableEq, Repr

/-- Python truthiness of `config.get("redis_host")`: present and non-empty. -/
def truthyStr : Option String → Bool
  | none => false
  | some s => !(s == "")

/-- Exception classes caught by `DBConnector.connect`'s `except` clause:
`(pymysql.Error, psycopg2.Error, ValueError)`. -/
def dbConnectCaught : PyExn → Bool
  | .pymysqlError _ => true
  | .psycopg2Error _ => true
  | .valueError _ => true
  | _ => false

/-- Exception classes caught by `execute_query`/`execute_update`:
`(pymysql.Error, psycopg2.Error)`. -/
def backendErr : PyExn → Bool
  | .pymysqlError _ => true
  | .psycopg2Error _ => true
  | _ => false

/-- Exception classes caught by `RedisConnector.connect`'s `except` clause:
`(redis.RedisError, BaseSSHTunnelForwarderError, paramiko.ssh_exception.SSHException)`. -/
def redisConnectCaught : PyExn → Bool
  | .redisError _ => true
  | .tunnelForwarderError _ => true
  | .sshException _ => true
  | _ => false

/-- Recognises Python's builtin `ConnectionError`. -/
def isConnectionError : PyExn → Bool
  | .connectionError _ => true
  | _ => false

/-- State of a `RedisConnector` object.  `redis_conn` is `some ()` when the
`redis.Redis` client object is assigned. -/
structure RedisConnector where
  use_ssh : Bool
  tunnel : Option Tunnel
  redis_conn : Option Unit
  is_connected : Bool
deriving DecidableEq, Repr

deriving instance DecidableEq for Except

/-- Outcomes of the external calls a `RedisConnector` method can make. -/
structure RedisWorld where
  tunnelOutcome : TunnelOutcome := .ok
  ping : Except PyExn Bool := .ok true
  connClose : Option PyExn := none
  tunnelStop : Option PyExn := none
deriving DecidableEq, Repr

/-- `RedisConnector.__init__`: validates the SSH fields when `use_ssh`, then
requires a truthy `redis_host`; raises `ValueError` otherwise.  The
constructor touches no external library. -/
def RedisConnector.init (config : PyDict) (use_ssh : Bool) :
    Except PyExn RedisConnector :=
  if use_ssh && (config.ssh_host.isNone || config.ssh_username.isNone) then
    .error (.valueError "SSH模式必须提供 ssh_host 和 ssh_username")
  else if !truthyStr config.redis_host then
    .error (.valueError "必须提供redis_host配置")
  else
    .ok { use_ssh := use_ssh, tunnel := none, redis_conn := none,
          is_connected := false }

/-- `RedisConnector.disconnect`: closes the client if assigned (close errors
caught and logged), clears it, closes the tunnel only when `use_ssh`, and
marks the session not connected.  The leading `disconnectCall` event records
the invocation. -/
def RedisConnector.disconnect (s : RedisConnector) (w : RedisWorld) :
    RedisConnector × List Ev :=
  let connEvs : List Ev :=
    match s.redis_conn with
    | some _ => [Ev.connClose]
    | none => []
  let tunnelRes : Option Tunnel × List Ev :=
    if s.use_ssh then closeSshTunnel s.tunnel w.tunnelStop
    else (s.tunnel, [])
  ({ s with redis_conn := none, tunnel := tunnelRes.1, is_connected := false },
   Ev.disconnectCall :: connEvs ++ tunnelRes.2)

/-- Models the `except (redis.RedisError, BaseSSHTunnelForwarderError,
SSHException)` clause of `RedisConnector.connect`: a caught exception
triggers `disconnect()` and is then re-raised bare; any other exception
propagates untouched. -/
def RedisConnector.onConnectExn (s : RedisConnector) (w : RedisWorld)
    (evs : List Ev) (e : PyExn) : RedisConnector × List Ev × Option PyExn :=
  if redisConnectCaught e then
    let d := s.disconnect w
    (d.1, evs ++ d.2, some e)
  else
    (s, evs, some e)

/-- The `if self.use_ssh: ... _setup_ssh_tunnel(...)` step at the top of
`RedisConnector.connect`'s `try` block. -/
def RedisConnector.tunnelPhase (s : RedisConnector) (w : RedisWorld) :
    RedisConnector × List Ev × Option PyExn :=
  if s.use_ssh then
    match setupSshTunnel s.tunnel w.tunnelOutcome with
    | (t, evs, r) => ({ s with tunnel := t }, evs, r)
  else (s, [], none)

/-- The remainder of `RedisConnector.connect`'s `try` block: assign the
`redis.Redis` client (a constructor, no network call) and probe with
`ping()`.  A falsy ping raises builtin `ConnectionError`; exceptions go
through `onConnectExn`. -/
def RedisConnector.pingPhase (s1 : RedisConnector) (w : RedisWorld)
    (evs1 : List Ev) : RedisConnector × List Ev × Option PyExn :=
  match w.ping with
  | .error e =>
    RedisConnector.onConnectExn { s1 with redis_conn := some () } w
      (evs1 ++ [Ev.probe]) e
  | .ok true =>
    ({ s1 with redis_conn := some (), is_connected := true },
     evs1 ++ [Ev.probe], none)
  | .ok false =>
    RedisConnector.onConnectExn { s1 with redis_conn := some () } w
      (evs1 ++ [Ev.probe]) (.connectionError "Redis连接测试失败")

/-- `RedisConnector.connect`: no-op when already connected; otherwise the
tunnel phase (whose exception also goes through `onConnectExn`) followed by
the client/ping phase. -/
def RedisConnector.connect (s : RedisConnector) (w : RedisWorld) :
    RedisConnector × List Ev × Option PyExn :=
  if s.is_connected then (s, [], none)
  else
    match s.tunnelPhase w with
    | (s1, evs1, some e) => RedisConnector.onConnectExn s1 w evs1 e
    | (s1, evs1, none) => RedisConnector.pingPhase s1 w evs1

/-- `RedisConnector.__enter__`: calls `connect()` and yields the raw
`redis_conn` object on success. -/
def RedisConnector.enter (s : RedisConnector) (w : RedisWorld) :
    RedisConnector × List Ev × Except PyExn (Option Unit) :=
  match s.connect w with
  | (s1, evs1, some e) => (s1, evs1, .error e)
  | (s1, evs1, none) => (s1, evs1, .ok s1.redis_conn)

/-- The Python `with` statement over a `RedisConnector`: `__enter__` (an
enter failure propagates without running `__exit__`), then the body (whose
outcome `bodyExn` is an oracle), then `__exit__`, i.e. `disconnect`, which
runs whether or not the body raised; since `__exit__` returns `None`, a body
exception propagates. -/
def RedisConnector.withScope (s : RedisConnector) (w : RedisWorld)
    (bodyExn : Option PyExn) : RedisConnector × List Ev × Option PyExn :=
  match RedisConnector.enter s w with
  | (s1, evs1, .error e) => (s1, evs1, some e)
  | (s1, evs1, .ok _) =>
    let d := s1.disconnect w
    (d.1, evs1 ++ d.2, bodyExn)

/-- State of a `MySQL` helper object (`src/pymysql/database.py`): the
connection and cursor fields, each `some isOpen` when assigned. -/
structure MySQLState where
  conn : Option Bool
  cursor : Option Bool
deriving DecidableEq, Repr

/-- Outcomes of the external calls a `MySQL.execute` run can make. -/
structure MySQLWorld where
  connectFail : Option PyExn := none
  execFail : Option PyExn := none
  commitFail : Option PyExn := none
  lastrowid : Nat := 0
  fetchallRows : List Row := []
  rollbackFail : Option PyExn := none
  cursorCloseFail : Option PyExn := none
  connCloseFail : Option PyExn := none
deriving DecidableEq, Repr

/-- Value returned by `MySQL.execute`: `cursor.lastrowid` for INSERT
statements, `cursor.fetchall()` for everything else. -/
inductive ExecResult where
  | rowId (n : Nat)
  | rows (rs : List Row)
deriving DecidableEq, Repr

/-- Python `sql.strip().lower().startswith("insert into")` from
`MySQL.execute`, computed over the string's character list (ASCII
whitespace strip, ASCII lowercase, prefix test) so that it evaluates. -/
def isInsertStatement (sql : String) : Bool :=
  let stripped :=
    ((sql.data.dropWhile Char.isWhitespace).reverse.dropWhile
      Char.isWhitespace).reverse
  "insert into".data.isPrefixOf (stripped.map Char.toLower)

/-- `MySQL.close`: `cursor.close()` when the cursor field is assigned, then
`conn.close()` when the connection field is assigned.  The calls are not
guarded by try/except, so a failing `cursor.close()` raises and skips
`conn.close()`; neither field is set back to `None`. -/
def MySQL.close (s : MySQLState) (w : MySQLWorld) :
    MySQLState × List Ev × Option PyExn :=
  let cursorStep : MySQLState × List Ev × Option PyExn :=
    match s.cursor with
    | some _ =>
      match w.cursorCloseFail with
      | some e => (s, [Ev.cursorClose], some e)
      | none => ({ s with cursor := some false }, [Ev.cursorClose], none)
    | none => (s, [], none)
  match cursorStep with
  | (s1, evs1, some e) => (s1, evs1, some e)
  | (s1, evs1, none) =>
    match s1.conn with
    | some _ =>
      match w.connCloseFail with
      | some e => (s1, evs1 ++ [Ev.connClose], some e)
      | none =>
        ({ s1 with conn := some false }, evs1 ++ [Ev.connClose], none)
    | none => (s1, evs1, none)

/-- The `finally` clause of `MySQL.execute` with an exception in flight:
`close()` runs, and if it raises, its exception replaces the pending one
(Python `finally` semantics). -/
def MySQL.finallyRaise (s : MySQLState) (w : MySQLWorld) (evs : List Ev)
    (pending : PyExn) : MySQLState × List Ev × Except PyExn ExecResult :=
  let c := MySQL.close s w
  (c.1, evs ++ c.2.1, .error (c.2.2.getD pending))

/-- The `except` clause of `MySQL.execute`: `self.conn.rollback()` runs
unguarded — when `self.conn` is `None` (a fresh object whose connect failed)
this itself raises `AttributeError`, and a failing rollback replaces the
original error — then the exception re-raises through the `finally`
clause. -/
def MySQL.exceptPath (s : MySQLState) (w : MySQLWorld) (evs : List Ev)
    (e : PyExn) : MySQLState × List Ev × Except PyExn ExecResult :=
  match s.conn with
  | none =>
    MySQL.finallyRaise s w evs
      (.attributeError "NoneType object has no attribute rollback")
  | some _ =>
    match w.rollbackFail with
    | some re => MySQL.finallyRaise s w (evs ++ [Ev.rollback]) re
    | none => MySQL.finallyRaise s w (evs ++ [Ev.rollback]) e

/-- `MySQL.execute`: `connect()` (assigning a fresh connection and cursor),
`cursor.execute(sql, params)`, `conn.commit()`, then return
`cursor.lastrowid` when the stripped lowercased statement starts with
`insert into` and `cursor.fetchall()` otherwise; exceptions go through
`exceptPath`, and `close()` always runs in the `finally` clause. -/
def MySQL.execute (s : MySQLState) (w : MySQLWorld) (sql : String) :
    MySQLState × List Ev × Except PyExn ExecResult :=
  match w.connectFail with
  | some e => MySQL.exceptPath s w [Ev.clientConnect] e
  | none =>
    let s1 : MySQLState := { conn := some true, cursor := some true }
    let evs1 := [Ev.clientConnect]
    match w.execFail with
    | some e => MySQL.exceptPath s1 w (evs1 ++ [Ev.cursorExec]) e
    | none =>
      match w.commitFail with
      | some e =>
        MySQL.exceptPath s1 w (evs1 ++ [Ev.cursorExec, Ev.commit]) e
      | none =>
        let result : ExecResult :=
          if isInsertStatement sql then
            .rowId w.lastrowid
          else
            .rows w.fetchallRows
        let evs2 := evs1 ++ [Ev.cursorExec, Ev.commit] ++
          (if isInsertStatement sql then []
           else [Ev.fetch])
        let c := MySQL.close s1 w
        match c.2.2 with
        | some e => (c.1, evs2 ++ c.2.1, .error e)
        | none => (c.1, evs2 ++ c.2.1, .ok result)

/-- State of a `DBConnector` object.  `db_type` is the lowered `db_type`
config value; `conn` is `some true` when a backend connection object is
assigned and open. -/
structure DBConnector where
  use_ssh : Bool
  db_type : String
  tunnel : Option Tunnel
  conn : Option Bool
  is_connected : Bool
deriving DecidableEq, Repr

/-- Outcomes of the external calls the `DBConnector` connect/disconnect
methods can make. -/
structure DBWorld where
  tunnelOutcome : TunnelOutcome := .ok
  clientConnect : Option PyExn := none
  probe : Option PyExn := none
  connClose : Option PyExn := none
  tunnelStop : Option PyExn := none
deriving DecidableEq, Repr

/-- `DBConnector.__init__`: requires `db_type`, `db_host`, `db_port`,
`db_user`, `db_name` to be present, then the SSH fields when `use_ssh`;
raises `ValueError` otherwise.  The constructor touches no external
library. -/
def DBConnector.init (config : PyDict) (use_ssh : Bool) :
    Except PyExn DBConnector :=
  if config.db_type.isNone || config.db_host.isNone || config.db_port.isNone
      || config.db_user.isNone || config.db_name.isNone then
    .error (.valueError
      "缺少必要配置项: [db_type, db_host, db_port, db_user, db_name]")
  else if use_ssh && (config.ssh_host.isNone || config.ssh_username.isNone) then
    .error (.valueError "SSH模式必须提供 ssh_host 和 ssh_username")
  else
    .ok { use_ssh := use_ssh, db_type := (config.db_type.getD "").toLower,
          tunnel := none, conn := none, is_connected := false }

/-- `DBConnector.disconnect`: closes the backend connection when assigned and
open for the two known backends (close errors caught and logged), clears it,
then stops the tunnel when one is present and active (stop errors caught and
logged, the field cleared; an inactive tunnel object is retained), and marks
the session not connected. -/
def DBConnector.disconnect (s : DBConnector) (w : DBWorld) :
    DBConnector × List Ev :=
  let connEvs : List Ev :=
    match s.conn with
    | some isOpen =>
      if (s.db_type == "mysql" || s.db_type == "postgresql") && isOpen then
        [Ev.connClose]
      else []
    | none => []
  let tunnelRes := closeSshTunnel s.tunnel w.tunnelStop
  ({ s with conn := none, tunnel := tunnelRes.1, is_connected := false },
   Ev.disconnectCall :: connEvs ++ tunnelRes.2)

/-- Models the `except (pymysql.Error, psycopg2.Error, ValueError)` clause of
`DBConnector.connect`: a caught exception triggers `disconnect()` and is then
re-raised bare; any other exception (notably the tunnel library's errors)
propagates untouched. -/
def DBConnector.onConnectExn (s : DBConnector) (w : DBWorld)
    (evs : List Ev) (e : PyExn) : DBConnector × List Ev × Option PyExn :=
  if dbConnectCaught e then
    let d := s.disconnect w
    (d.1, evs ++ d.2, some e)
  else
    (s, evs, some e)

/-- The `if self.use_ssh: ... _setup_ssh_tunnel(...)` step at the top of
`DBConnector.connect`'s `try` block. -/
def DBConnector.tunnelPhase (s : DBConnector) (w : DBWorld) :
    DBConnector × List Ev × Option PyExn :=
  if s.use_ssh then
    match setupSshTunnel s.tunnel w.tunnelOutcome with
    | (t, evs, r) => ({ s with tunnel := t }, evs, r)
  else (s, [], none)

/-- The remainder of `DBConnector.connect`'s `try` block: dispatch on
`db_type` to the backend client connect (`ValueError` for an unsupported
type), then probe with `SELECT 1`.  Exceptions go through `onConnectExn`. -/
def DBConnector.clientProbePhase (s1 : DBConnector) (w : DBWorld)
    (evs1 : List Ev) : DBConnector × List Ev × Option PyExn :=
  if s1.db_type == "mysql" || s1.db_type == "postgresql" then
    match w.clientConnect with
    | some e =>
      DBConnector.onConnectExn s1 w (evs1 ++ [Ev.clientConnect]) e
    | none =>
      match w.probe with
      | some e =>
        DBConnector.onConnectExn { s1 with conn := some true } w
          (evs1 ++ [Ev.clientConnect, Ev.probe]) e
      | none =>
        ({ s1 with conn := some true, is_connected := true },
         evs1 ++ [Ev.clientConnect, Ev.probe], none)
  else
    DBConnector.onConnectExn s1 w evs1
      (.valueError ("不支持的数据库类型: " ++ s1.db_type))

/-- `DBConnector.connect`: no-op when already connected; otherwise the
tunnel phase (whose exception also goes through `onConnectExn`) followed by
the client/probe phase. -/
def DBConnector.connect (s : DBConnector) (w : DBWorld) :
    DBConnector × List Ev × Option PyExn :=
  if s.is_connected then (s, [], none)
  else
    match s.tunnelPhase w with
    | (s1, evs1, some e) => DBConnector.onConnectExn s1 w evs1 e
    | (s1, evs1, none) => DBConnector.clientProbePhase s1 w evs1

/-- Outcomes of the external calls `execute_query`/`execute_update` make. -/
structure QueryWorld where
  execFail : Option PyExn := none
  rows : List Row := []
  rowcount : Nat := 0
  commitFail : Option PyExn := none
  rollbackFail : Option PyExn := none
deriving DecidableEq, Repr

/-- Models the `except (pymysql.Error, psycopg2.Error)` clause shared by
`execute_query` and `execute_update`: for a caught backend error a rollback
is issued (unguarded in the source, so a rollback failure propagates in
place of the original error); otherwise the original re-raises bare.  An
uncaught exception propagates without a rollback. -/
def DBConnector.onQueryExn (w : QueryWorld) (evs : List Ev) (e : PyExn) :
    List Ev × PyExn :=
  if backendErr e then
    match w.rollbackFail with
    | some re => (evs ++ [Ev.rollback], re)
    | none => (evs ++ [Ev.rollback], e)
  else
    (evs, e)

/-- `DBConnector.execute_query`: guard raising builtin `ConnectionError`
when not connected (before any cursor or network use), then execute and
fetch all rows; a backend error triggers the shared rollback handling. -/
def DBConnector.execute_query (s : DBConnector) (w : QueryWorld)
    (sql : String) : DBConnector × List Ev × Except PyExn (List Row) :=
  if !s.is_connected || s.conn.isNone then
    (s, [], .error (.connectionError "数据库未连接"))
  else
    match w.execFail with
    | none => (s, [Ev.cursorExec, Ev.fetch], .ok w.rows)
    | some e =>
      let r := DBConnector.onQueryExn w [Ev.cursorExec] e
      (s, r.1, .error r.2)

/-- `DBConnector.execute_update`: guard raising builtin `ConnectionError`
when not connected, then execute, read `rowcount`, commit and return the
count; a backend error from execute or commit triggers the shared rollback
handling, and no count is returned on failure. -/
def DBConnector.execute_update (s : DBConnector) (w : QueryWorld)
    (sql : String) : DBConnector × List Ev × Except PyExn Nat :=
  if !s.is_connected || s.conn.isNone then
    (s, [], .error (.connectionError "数据库未连接"))
  else
    match w.execFail with
    | some e =>
      let r := DBConnector.onQueryExn w [Ev.cursorExec] e
      (s, r.1, .error r.2)
    | none =>
      match w.commitFail with
      | some e =>
        let r := DBConnector.onQueryExn w [Ev.cursorExec, Ev.commit] e
        (s, r.1, .error r.2)
      | none => (s, [Ev.cursorExec, Ev.commit], .ok w.rowcount)

/-- `DBConnector.__enter__`: calls `connect()` and yields the session object
itself on success. -/
def DBConnector.enter (s : DBConnector) (w : DBWorld) :
    DBConnector × List Ev × Except PyExn DBConnector :=
  match s.connect w with
  | (s1, evs1, some e) => (s1, evs1, .error e)
  | (s1, evs1, none) => (s1, evs1, .ok s1)

/-- The Python `with` statement over a `DBConnector`: `__enter__` (an enter
failure propagates without running `__exit__`), then the body, then
`__exit__`, i.e. `disconnect`, which runs whether or not the body raised. -/
def DBConnector.withScope (s : DBConnector) (w : DBWorld)
    (bodyExn : Option PyExn) : DBConnector × List Ev × Option PyExn :=
  match DBConnector.enter s w with
  | (s1, evs1, .error e) => (s1, evs1, some e)
  | (s1, evs1, .ok _) =>
    let d := s1.disconnect w
    (d.1, evs1 ++ d.2, bodyExn)

/-! Helper lemmas shared by the claim theorems. -/

theorem dbOnConnectExn_exn (s : DBConnector) (w : DBWorld)
    (evs : List Ev) (e : PyExn) :
    (DBConnector.onConnectExn s w evs e).2.2 = some e := by
  unfold DBConnector.onConnectExn
  split <;> rfl

theorem redisOnConnectExn_exn (s : RedisConnector) (w : RedisWorld)
    (evs : List Ev) (e : PyExn) :
    (RedisConnector.onConnectExn s w evs e).2.2 = some e := by
  unfold RedisConnector.onConnectExn
  split <;> rfl

theorem dbDisconnect_state (s : DBConnector) (w : DBWorld) :
    (s.disconnect w).1.is_connected = false ∧ (s.disconnect w).1.conn = none := by
  unfold DBConnector.disconnect
  exact ⟨rfl, rfl⟩

theorem redisDisconnect_state (s : RedisConnector) (w : RedisWorld) :
    (s.disconnect w).1.is_connected = false ∧
      (s.disconnect w).1.redis_conn = none := by
  unfold RedisConnector.disconnect
  exact ⟨rfl, rfl⟩

theorem closeSshTunnel_events (t : Option Tunnel) (f : Option PyExn) :
    (closeSshTunnel t f).2 = [] ∨ (closeSshTunnel t f).2 = [Ev.tunnelStop] := by
  unfold closeSshTunnel
  rcases t with _ | tn
  · exact Or.inl rfl
  · by_cases h : tn.is_active = true <;> simp [h] <;>
      rcases f with _ | e <;> simp

theorem dbDisconnect_count (s : DBConnector) (w : DBWorld) :
    (s.disconnect w).2.count Ev.disconnectCall = 1 := by
  unfold DBConnector.disconnect
  rcases closeSshTunnel_events s.tunnel w.tunnelStop with h | h <;>
    rcases s.conn with _ | isOpen <;>
    simp [h, List.count_cons, List.count_append] <;>
    split <;> simp

theorem redisDisconnect_count (s : RedisConnector) (w : RedisWorld) :
    (s.disconnect w).2.count Ev.disconnectCall = 1 := by
  unfold RedisConnector.disconnect
  rcases closeSshTunnel_events s.tunnel w.tunnelStop with h | h <;>
    rcases s.redis_conn with _ | u <;> cases hu : s.use_ssh <;>
    simp [h, hu, List.count_cons, List.count_append]

theorem dbOnConnectExn_ne_ok (s : DBConnector) (w : DBWorld)
    (evs : List Ev) (e : PyExn) (s1 : DBConnector) (evs1 : List Ev) :
    DBConnector.onConnectExn s w evs e ≠ (s1, evs1, none) := by
  intro h
  have h2 := congrArg (fun p => p.2.2) h
  simp only [dbOnConnectExn_exn] at h2
  exact Option.noConfusion h2

theorem redisOnConnectExn_ne_ok (s : RedisConnector) (w : RedisWorld)
    (evs : List Ev) (e : PyExn) (s1 : RedisConnector) (evs1 : List Ev) :
    RedisConnector.onConnectExn s w evs e ≠ (s1, evs1, none) := by
  intro h
  have h2 := congrArg (fun p => p.2.2) h
  simp only [redisOnConnectExn_exn] at h2
  exact Option.noConfusion h2

theorem dbTunnelPhase_ok (s : DBConnector) (w : DBWorld)
    (s1 : DBConnector) (evs1 : List Ev)
    (h : s.tunnelPhase w = (s1, evs1, none)) :
    (evs1 = [] ∨ evs1 = [Ev.tunnelStart]) ∧
    s1.is_connected = s.is_connected ∧ s1.db_type = s.db_type ∧
    s1.conn = s.conn := by
  unfold DBConnector.tunnelPhase at h
  by_cases hs : s.use_ssh = true
  · rw [if_pos hs] at h
    rcases ht : w.tunnelOutcome with _ | e | e <;>
      rw [ht] at h <;> simp only [setupSshTunnel, Prod.mk.injEq] at h
    · obtain ⟨h1, h2, -⟩ := h
      subst h1; subst h2
      exact ⟨Or.inr rfl, rfl, rfl, rfl⟩
    · exact absurd h.2.2 (by simp)
    · exact absurd h.2.2 (by simp)
  · rw [if_neg hs] at h
    simp only [Prod.mk.injEq] at h
    obtain ⟨h1, h2, -⟩ := h
    subst h1; subst h2
    exact ⟨Or.inl rfl, rfl, rfl, rfl⟩

theorem redisTunnelPhase_ok (s : RedisConnector) (w : RedisWorld)
    (s1 : RedisConnector) (evs1 : List Ev)
    (h : s.tunnelPhase w = (s1, evs1, none)) :
    (evs1 = [] ∨ evs1 = [Ev.tunnelStart]) ∧
    s1.is_connected = s.is_connected ∧ s1.redis_conn = s.redis_conn := by
  unfold RedisConnector.tunnelPhase at h
  by_cases hs : s.use_ssh = true
  · rw [if_pos hs] at h
    rcases ht : w.tunnelOutcome with _ | e | e <;>
      rw [ht] at h <;> simp only [setupSshTunnel, Prod.mk.injEq] at h
    · obtain ⟨h1, h2, -⟩ := h
      subst h1; subst h2
      exact ⟨Or.inr rfl, rfl, rfl⟩
    · exact absurd h.2.2 (by simp)
    · exact absurd h.2.2 (by simp)
  · rw [if_neg hs] at h
    simp only [Prod.mk.injEq] at h
    obtain ⟨h1, h2, -⟩ := h
    subst h1; subst h2
    exact ⟨Or.inl rfl, rfl, rfl⟩

theorem dbConnect_ok (s : DBConnector) (w : DBWorld)
    (s1 : DBConnector) (evs : List Ev)
    (h : s.connect w = (s1, evs, none)) :
    s1.is_connected = true ∧ evs.count Ev.disconnectCall = 0 := by
  unfold DBConnector.connect at h
  by_cases hc : s.is_connected = true
  · rw [if_pos hc] at h
    simp only [Prod.mk.injEq] at h
    obtain ⟨h1, h2, -⟩ := h
    subst h1; subst h2
    exact ⟨hc, rfl⟩
  · rw [if_neg hc] at h
    rcases htp : s.tunnelPhase w with ⟨sa, evsa, r⟩
    rw [htp] at h
    rcases r with _ | e
    · simp only [] at h
      have tp := dbTunnelPhase_ok s w sa evsa htp
      unfold DBConnector.clientProbePhase at h
      by_cases hd : (sa.db_type == "mysql" || sa.db_type == "postgresql") = true
      · rw [if_pos hd] at h
        rcases hcc : w.clientConnect with _ | e
        · rw [hcc] at h
          rcases hp : w.probe with _ | e
          · rw [hp] at h
            simp only [Prod.mk.injEq] at h
            obtain ⟨h1, h2, -⟩ := h
            subst h1; subst h2
            refine ⟨rfl, ?_⟩
            rcases tp.1 with he | he <;> subst he <;> rfl
          · rw [hp] at h
            simp only [] at h
            exact absurd h (dbOnConnectExn_ne_ok _ _ _ _ _ _)
        · rw [hcc] at h
          simp only [] at h
          exact absurd h (dbOnConnectExn_ne_ok _ _ _ _ _ _)
      · rw [if_neg hd] at h
        exact absurd h (dbOnConnectExn_ne_ok _ _ _ _ _ _)
    · simp only [] at h
      exact absurd h (dbOnConnectExn_ne_ok _ _ _ _ _ _)

theorem redisConnect_ok (s : RedisConnector) (w : RedisWorld)
    (s1 : RedisConnector) (evs : List Ev)
    (h : s.connect w = (s1, evs, none)) :
    s1.is_connected = true ∧ evs.count Ev.disconnectCall = 0 := by
  unfold RedisConnector.connect at h
  by_cases hc : s.is_connected = true
  · rw [if_pos hc] at h
    simp only [Prod.mk.injEq] at h
    obtain ⟨h1, h2, -⟩ := h
    subst h1; subst h2
    exact ⟨hc, rfl⟩
  · rw [if_neg hc] at h
    rcases htp : s.tunnelPhase w with ⟨sa, evsa, r⟩
    rw [htp] at h
    rcases r with _ | e
    · simp only [] at h
      have tp := redisTunnelPhase_ok s w sa evsa htp
      unfold RedisConnector.pingPhase at h
      rcases hp : w.ping with e | b
      · rw [hp] at h
        simp only [] at h
        exact absurd h (redisOnConnectExn_ne_ok _ _ _ _ _ _)
      · cases b
        · rw [hp] at h
          simp only [] at h
          exact absurd h (redisOnConnectExn_ne_ok _ _ _ _ _ _)
        · rw [hp] at h
          simp only [Prod.mk.injEq] at h
          obtain ⟨h1, h2, -⟩ := h
          subst h1; subst h2
          refine ⟨rfl, ?_⟩
          rcases tp.1 with he | he <;> subst he <;> rfl
    · simp only [] at h
      exact absurd h (redisOnConnectExn_ne_ok _ _ _ _ _ _)

theorem closeSshTunnel_const (t : Option Tunnel) (f f2 : Option PyExn) :
    closeSshTunnel t f = closeSshTunnel t f2 := by
  unfold closeSshTunnel
  rcases t with _ | tn
  · rfl
  · by_cases h : tn.is_active = true <;> simp [h] <;>
      rcases f with _ | e <;> rcases f2 with _ | e2 <;> rfl

theorem closeSshTunnel_idem (t : Option Tunnel) (f f2 : Option PyExn) :
    closeSshTunnel (closeSshTunnel t f).1 f2 = ((closeSshTunnel t f).1, []) := by
  rcases t with _ | tn
  · rfl
  · rcases tn with ⟨ta⟩
    cases ta
    · rfl
    · rcases f with _ | e <;> rfl

/-! Concrete session and configuration fixtures used by the witnesses and
counterexamples. -/

/-- A freshly constructed MySQL-backed `DBConnector` without SSH. -/
def sqlFresh : DBConnector :=
  { use_ssh := false, db_type := "mysql", tunnel := none, conn := none,
    is_connected := false }

/-- A freshly constructed MySQL-backed `DBConnector` with `use_ssh`. -/
def sqlFreshSsh : DBConnector :=
  { use_ssh := true, db_type := "mysql", tunnel := none, conn := none,
    is_connected := false }

/-- A connected MySQL-backed `DBConnector` without SSH. -/
def sqlLive : DBConnector :=
  { use_ssh := false, db_type := "mysql", tunnel := none, conn := some true,
    is_connected := true }

/-- A freshly constructed `RedisConnector` without SSH. -/
def redisFresh : RedisConnector :=
  { use_ssh := false, tunnel := none, redis_conn := none,
    is_connected := false }

/-- A complete configuration with every field the two constructors read. -/
def cfgFull : PyDict :=
  { db_type := some "mysql", db_host := some "db.internal",
    db_port := some 3306, db_user := some "root", db_name := some "app",
    redis_host := some "cache.internal",
    ssh_host := some "bastion", ssh_username := some "deploy" }

/-- The empty configuration: every key absent. -/
def cfgEmpty : PyDict := {}

/-! Claim theorems. -/

/-- C4: for every session, `disconnect()` closes the backing client
connection if present (for the SQL session: when the backend is one of the
two known kinds), then closes the owned active tunnel, and marks the session
Disconnected; both teardown steps run and the result is identical for every
combination of close/stop failures (the source catches and logs them), so
`disconnect()` never raises. -/
theorem C4_disconnect_teardown :
    (∀ (s : DBConnector) (w w2 : DBWorld),
      (s.disconnect w).1.is_connected = false ∧
      (s.disconnect w).1.conn = none ∧
      s.disconnect w = s.disconnect w2 ∧
      (s.conn = some true →
        (s.db_type = "mysql" ∨ s.db_type = "postgresql") →
        Ev.connClose ∈ (s.disconnect w).2) ∧
      (∀ tn, s.tunnel = some tn → tn.is_active = true →
        Ev.tunnelStop ∈ (s.disconnect w).2 ∧
        (s.disconnect w).1.tunnel = none)) ∧
    (∀ (s : RedisConnector) (w w2 : RedisWorld),
      (s.disconnect w).1.is_connected = false ∧
      (s.disconnect w).1.redis_conn = none ∧
      s.disconnect w = s.disconnect w2 ∧
      (∀ u, s.redis_conn = some u → Ev.connClose ∈ (s.disconnect w).2) ∧
      (∀ tn, s.use_ssh = true → s.tunnel = some tn → tn.is_active = true →
        Ev.tunnelStop ∈ (s.disconnect w).2 ∧
        (s.disconnect w).1.tunnel = none)) := by
  constructor
  · intro s w w2
    refine ⟨(dbDisconnect_state s w).1,
      (dbDisconnect_state s w).2, ?_, ?_, ?_⟩
    · unfold DBConnector.disconnect
      rw [closeSshTunnel_const s.tunnel w.tunnelStop w2.tunnelStop]
    · intro hc hd
      have hb : (s.db_type == "mysql" || s.db_type == "postgresql") = true := by
        rcases hd with h | h <;> simp [h]
      unfold DBConnector.disconnect
      simp [hc, hb]
    · intro tn htn hact
      unfold DBConnector.disconnect closeSshTunnel
      rw [htn]
      rcases hf : w.tunnelStop with _ | e <;> simp [hact, hf]
  · intro s w w2
    refine ⟨(redisDisconnect_state s w).1,
      (redisDisconnect_state s w).2, ?_, ?_, ?_⟩
    · unfold RedisConnector.disconnect
      rw [closeSshTunnel_const s.tunnel w.tunnelStop w2.tunnelStop]
    · intro u hc
      unfold RedisConnector.disconnect
      simp [hc]
    · intro tn hssh htn hact
      unfold RedisConnector.disconnect closeSshTunnel
      rw [htn]
      rcases hf : w.tunnelStop with _ | e <;> simp [hssh, hact, hf]

/-- C4 witness: a concrete SQL session holding an open MySQL connection and
an active tunnel, and a concrete cache session holding a client and an
active tunnel, torn down under worlds whose close and stop calls fail. -/
theorem C4_disconnect_teardown_witness :
    (let s : DBConnector :=
      { use_ssh := true, db_type := "mysql", tunnel := some ⟨true⟩,
        conn := some true, is_connected := true }
     let w : DBWorld :=
      { connClose := some (.pymysqlError "close failed"),
        tunnelStop := some (.tunnelForwarderError "stop failed") }
     (s.disconnect w).1.is_connected = false ∧
     (s.disconnect w).1.conn = none ∧
     s.disconnect w = s.disconnect {} ∧
     Ev.connClose ∈ (s.disconnect w).2 ∧
     (Ev.tunnelStop ∈ (s.disconnect w).2 ∧
      (s.disconnect w).1.tunnel = none)) ∧
    (let s : RedisConnector :=
      { use_ssh := true, tunnel := some ⟨true⟩, redis_conn := some (),
        is_connected := true }
     let w : RedisWorld :=
      { connClose := some (.redisError "close failed"),
        tunnelStop := some (.sshException "stop failed") }
     (s.disconnect w).1.is_connected = false ∧
     (s.disconnect w).1.redis_conn = none ∧
     s.disconnect w = s.disconnect {} ∧
     Ev.connClose ∈ (s.disconnect w).2 ∧
     (Ev.tunnelStop ∈ (s.disconnect w).2 ∧
      (s.disconnect w).1.tunnel = none)) := by
  constructor
  · have h := C4_disconnect_teardown.1
      { use_ssh := true, db_type := "mysql", tunnel := some ⟨true⟩,
        conn := some true, is_connected := true }
      { connClose := some (.pymysqlError "close failed"),
        tunnelStop := some (.tunnelForwarderError "stop failed") } {}
    exact ⟨h.1, h.2.1, h.2.2.1, h.2.2.2.1 rfl (Or.inl rfl),
      h.2.2.2.2 ⟨true⟩ rfl rfl⟩
  · have h := C4_disconnect_teardown.2
      { use_ssh := true, tunnel := some ⟨true⟩, redis_conn := some (),
        is_connected := true }
      { connClose := some (.redisError "close failed"),
        tunnelStop := some (.sshException "stop failed") } {}
    exact ⟨h.1, h.2.1, h.2.2.1, h.2.2.2.1 () rfl,
      h.2.2.2.2 ⟨true⟩ rfl rfl rfl⟩

/-- C9: for every session, a second `disconnect()` (equivalently, calling it
when already Disconnected) performs no close or stop call at all (its trace
is just the invocation marker), changes nothing, and the session stays
Disconnected; the model's teardown also never raises (see C4's theorem). -/
theorem C9_disconnect_idempotent :
    (∀ (s : DBConnector) (w w2 : DBWorld),
      (s.disconnect w).1.is_connected = false ∧
      (s.disconnect w).1.disconnect w2 =
        ((s.disconnect w).1, [Ev.disconnectCall])) ∧
    (∀ (s : RedisConnector) (w w2 : RedisWorld),
      (s.disconnect w).1.is_connected = false ∧
      (s.disconnect w).1.disconnect w2 =
        ((s.disconnect w).1, [Ev.disconnectCall])) := by
  constructor
  · intro s w w2
    refine ⟨(dbDisconnect_state s w).1, ?_⟩
    unfold DBConnector.disconnect
    simp [closeSshTunnel_idem]
  · intro s w w2
    refine ⟨(redisDisconnect_state s w).1, ?_⟩
    unfold RedisConnector.disconnect
    cases hu : s.use_ssh <;> simp [hu, closeSshTunnel_idem]

/-- C8: for every session already Connected, `connect()` is a no-op (the
source logs a warning and returns): no event is produced and the state is
unchanged; consequently two consecutive `connect()` calls from any state
perform the underlying setup exactly once — the second call contributes an
empty trace and leaves the state of the first call intact. -/
theorem C8_connect_noop_when_connected :
    (∀ (s : DBConnector) (w : DBWorld), s.is_connected = true →
      s.connect w = (s, [], none)) ∧
    (∀ (s : DBConnector) (w w2 : DBWorld) (s1 : DBConnector) (evs : List Ev),
      s.connect w = (s1, evs, none) → s1.connect w2 = (s1, [], none)) ∧
    (∀ (s : RedisConnector) (w : RedisWorld), s.is_connected = true →
      s.connect w = (s, [], none)) ∧
    (∀ (s : RedisConnector) (w w2 : RedisWorld) (s1 : RedisConnector)
        (evs : List Ev),
      s.connect w = (s1, evs, none) → s1.connect w2 = (s1, [], none)) := by
  refine ⟨?_, ?_, ?_, ?_⟩
  · intro s w h
    unfold DBConnector.connect
    rw [if_pos h]
  · intro s w w2 s1 evs h
    have hc := (dbConnect_ok s w s1 evs h).1
    unfold DBConnector.connect
    rw [if_pos hc]
  · intro s w h
    unfold RedisConnector.connect
    rw [if_pos h]
  · intro s w w2 s1 evs h
    have hc := (redisConnect_ok s w s1 evs h).1
    unfold RedisConnector.connect
    rw [if_pos hc]

/-- C8 witness: starting from the fresh fixtures under the all-success
world, the first `connect()` performs the setup and the second is a no-op
with an empty trace. -/
theorem C8_connect_noop_when_connected_witness :
    sqlLive.connect {} = (sqlLive, [], none) ∧
    ({ redisFresh with redis_conn := some (), is_connected := true
       : RedisConnector }).connect {} =
      ({ redisFresh with redis_conn := some (), is_connected := true }, [],
        none) ∧
    sqlLive.connect {} = (sqlLive, [], none) ∧
    ({ redisFresh with redis_conn := some (), is_connected := true
       : RedisConnector }).connect {} =
      ({ redisFresh with redis_conn := some (), is_connected := true }, [],
        none) :=
  ⟨C8_connect_noop_when_connected.1 sqlLive {} rfl,
   C8_connect_noop_when_connected.2.2.1 _ {} rfl,
   C8_connect_noop_when_connected.2.1 sqlFresh {} {} sqlLive
     [Ev.clientConnect, Ev.probe] rfl,
   C8_connect_noop_when_connected.2.2.2 redisFresh {} {}
     { redisFresh with redis_conn := some (), is_connected := true }
     [Ev.probe] rfl⟩

/-- C5: for every SQL session in the Disconnected state, `execute_query` and
`execute_update` raise the not-connected error — realised in the source as
builtin `ConnectionError("数据库未连接")`, the spec's `NotConnectedError` —
with an empty event trace: no cursor use, no statement sent, no commit or
rollback. -/
theorem C5_disconnected_query_guard (s : DBConnector) (w : QueryWorld)
    (sql : String) (h : s.is_connected = false) :
    s.execute_query w sql =
      (s, [], .error (.connectionError "数据库未连接")) ∧
    s.execute_update w sql =
      (s, [], .error (.connectionError "数据库未连接")) := by
  constructor
  · unfold DBConnector.execute_query
    simp [h]
  · unfold DBConnector.execute_update
    simp [h]

/-- C5 witness: the fresh SQL fixture rejects a query and an update without
producing any event. -/
theorem C5_disconnected_query_guard_witness :
    sqlFresh.execute_query {} "SELECT * FROM t" =
      (sqlFresh, [], .error (.connectionError "数据库未连接")) ∧
    sqlFresh.execute_update {} "DELETE FROM t" =
      (sqlFresh, [], .error (.connectionError "数据库未连接")) :=
  ⟨(C5_disconnected_query_guard sqlFresh {} "SELECT * FROM t" rfl).1,
   (C5_disconnected_query_guard sqlFresh {} "DELETE FROM t" rfl).2⟩

/-- C7: constructing a session from a config missing a required field fails
with the configuration error (realised as `ValueError`, the spec's
`ConfigError`) at construction time; the constructors are pure validation
and marshaling, so no connect attempt or network activity can precede the
failure. -/
theorem C7_config_validation (c : PyDict) (u : Bool) :
    ((c.db_type.isNone || c.db_host.isNone || c.db_port.isNone ||
        c.db_user.isNone || c.db_name.isNone) = true →
      DBConnector.init c u =
        .error (.valueError
          "缺少必要配置项: [db_type, db_host, db_port, db_user, db_name]")) ∧
    (u = true → (c.ssh_host.isNone || c.ssh_username.isNone) = true →
      (c.db_type.isNone || c.db_host.isNone || c.db_port.isNone ||
        c.db_user.isNone || c.db_name.isNone) = false →
      DBConnector.init c u =
        .error (.valueError "SSH模式必须提供 ssh_host 和 ssh_username")) ∧
    (u = true → (c.ssh_host.isNone || c.ssh_username.isNone) = true →
      RedisConnector.init c u =
        .error (.valueError "SSH模式必须提供 ssh_host 和 ssh_username")) ∧
    (truthyStr c.redis_host = false →
      (u = true → (c.ssh_host.isNone || c.ssh_username.isNone) = false) →
      RedisConnector.init c u =
        .error (.valueError "必须提供redis_host配置")) := by
  refine ⟨?_, ?_, ?_, ?_⟩
  · intro h
    unfold DBConnector.init
    rw [if_pos h]
  · intro hu hs hreq
    unfold DBConnector.init
    rw [if_neg (by simp [hreq]), if_pos (by simp [hu, hs])]
  · intro hu hs
    unfold RedisConnector.init
    rw [if_pos (by simp [hu, hs])]
  · intro hr hs
    unfold RedisConnector.init
    cases hu : u
    · rw [if_neg (by simp), if_pos (by simp [hr])]
    · rw [if_neg (by simp [hs hu]), if_pos (by simp [hr])]

/-- C7 witness: the empty config is rejected by both constructors; the full
config with `use_ssh` but no SSH fields is rejected by the SQL constructor;
the full config with SSH fields but an absent `redis_host` is rejected by
the cache constructor. -/
theorem C7_config_validation_witness :
    DBConnector.init cfgEmpty false =
      .error (.valueError
        "缺少必要配置项: [db_type, db_host, db_port, db_user, db_name]") ∧
    DBConnector.init { cfgFull with ssh_host := none } true =
      .error (.valueError "SSH模式必须提供 ssh_host 和 ssh_username") ∧
    RedisConnector.init cfgEmpty true =
      .error (.valueError "SSH模式必须提供 ssh_host 和 ssh_username") ∧
    RedisConnector.init { cfgFull with redis_host := none } true =
      .error (.valueError "必须提供redis_host配置") :=
  ⟨(C7_config_validation cfgEmpty false).1 rfl,
   (C7_config_validation { cfgFull with ssh_host := none } true).2.1
     rfl rfl rfl,
   (C7_config_validation cfgEmpty true).2.2.1 rfl rfl,
   (C7_config_validation { cfgFull with redis_host := none } true).2.2.2
     rfl (fun _ => rfl)⟩

/-- C2: for every session whose `connect()` succeeds, scoped acquisition
(`with` statement) enters by calling `connect()` and yields the usable
handle — the raw `redis_conn` client for the cache session, the session
object itself for the SQL session — and `disconnect()` runs exactly once on
leaving the scope, whether the body returns normally (`bodyExn = none`) or
raises (`bodyExn = some e`); the body's outcome is what propagates. -/
theorem C2_scoped_acquisition :
    (∀ (s : DBConnector) (w : DBWorld) (s1 : DBConnector) (evs1 : List Ev),
      s.connect w = (s1, evs1, none) →
      DBConnector.enter s w = (s1, evs1, .ok s1) ∧
      ∀ bodyExn,
        (DBConnector.withScope s w bodyExn).2.1.count Ev.disconnectCall = 1 ∧
        (DBConnector.withScope s w bodyExn).2.2 = bodyExn) ∧
    (∀ (s : RedisConnector) (w : RedisWorld) (s1 : RedisConnector)
        (evs1 : List Ev),
      s.connect w = (s1, evs1, none) →
      RedisConnector.enter s w = (s1, evs1, .ok s1.redis_conn) ∧
      ∀ bodyExn,
        (RedisConnector.withScope s w bodyExn).2.1.count Ev.disconnectCall
          = 1 ∧
        (RedisConnector.withScope s w bodyExn).2.2 = bodyExn) := by
  constructor
  · intro s w s1 evs1 h
    have hcnt := (dbConnect_ok s w s1 evs1 h).2
    have he : DBConnector.enter s w = (s1, evs1, .ok s1) := by
      unfold DBConnector.enter
      rw [h]
    refine ⟨he, ?_⟩
    intro bodyExn
    unfold DBConnector.withScope
    rw [he]
    simp [List.count_append, hcnt, dbDisconnect_count]
  · intro s w s1 evs1 h
    have hcnt := (redisConnect_ok s w s1 evs1 h).2
    have he : RedisConnector.enter s w = (s1, evs1, .ok s1.redis_conn) := by
      unfold RedisConnector.enter
      rw [h]
    refine ⟨he, ?_⟩
    intro bodyExn
    unfold RedisConnector.withScope
    rw [he]
    simp [List.count_append, hcnt, redisDisconnect_count]

/-- C2 witness: the fresh fixtures under the all-success world; the scope is
run once with a normally-returning body and once with a raising body. -/
theorem C2_scoped_acquisition_witness :
    (DBConnector.enter sqlFresh {} =
      (sqlLive, [Ev.clientConnect, Ev.probe], .ok sqlLive) ∧
     (DBConnector.withScope sqlFresh {} none).2.1.count Ev.disconnectCall
        = 1 ∧
     (DBConnector.withScope sqlFresh {}
        (some (.otherError "body failed"))).2.2 =
       some (.otherError "body failed")) ∧
    (RedisConnector.enter redisFresh {} =
      ({ redisFresh with redis_conn := some (), is_connected := true },
       [Ev.probe], .ok (some ())) ∧
     (RedisConnector.withScope redisFresh {} none).2.1.count
        Ev.disconnectCall = 1 ∧
     (RedisConnector.withScope redisFresh {}
        (some (.otherError "body failed"))).2.2 =
       some (.otherError "body failed")) := by
  constructor
  · have h := C2_scoped_acquisition.1 sqlFresh {} sqlLive
      [Ev.clientConnect, Ev.probe] rfl
    exact ⟨h.1, (h.2 none).1, (h.2 (some (.otherError "body failed"))).2⟩
  · have h := C2_scoped_acquisition.2 redisFresh {}
      { redisFresh with redis_conn := some (), is_connected := true }
      [Ev.probe] rfl
    exact ⟨h.1, (h.2 none).1, (h.2 (some (.otherError "body failed"))).2⟩

theorem dbTunnelPhase_evs (s : DBConnector) (w : DBWorld) :
    (s.tunnelPhase w).2.1.count Ev.disconnectCall = 0 := by
  unfold DBConnector.tunnelPhase
  by_cases hs : s.use_ssh = true
  · rw [if_pos hs]
    rcases ht : w.tunnelOutcome with _ | e | e <;> simp [setupSshTunnel]
  · rw [if_neg hs]
    rfl

theorem redisTunnelPhase_evs (s : RedisConnector) (w : RedisWorld) :
    (s.tunnelPhase w).2.1.count Ev.disconnectCall = 0 := by
  unfold RedisConnector.tunnelPhase
  by_cases hs : s.use_ssh = true
  · rw [if_pos hs]
    rcases ht : w.tunnelOutcome with _ | e | e <;> simp [setupSshTunnel]
  · rw [if_neg hs]
    rfl

theorem dbOnConnectExn_count (s : DBConnector) (w : DBWorld)
    (evs : List Ev) (e : PyExn) (hevs : evs.count Ev.disconnectCall = 0) :
    (dbConnectCaught e = true →
      (DBConnector.onConnectExn s w evs e).2.1.count Ev.disconnectCall = 1 ∧
      (DBConnector.onConnectExn s w evs e).1.is_connected = false ∧
      (DBConnector.onConnectExn s w evs e).1.conn = none) ∧
    (dbConnectCaught e = false →
      (DBConnector.onConnectExn s w evs e).2.1.count Ev.disconnectCall
        = 0) := by
  unfold DBConnector.onConnectExn
  by_cases hce : dbConnectCaught e = true
  · rw [if_pos hce]
    refine ⟨fun _ => ⟨?_, (dbDisconnect_state s w).1,
        (dbDisconnect_state s w).2⟩,
      fun hf => absurd hce (by simp [hf])⟩
    simp [List.count_append, hevs, dbDisconnect_count]
  · rw [if_neg hce]
    exact ⟨fun ht => absurd ht hce, fun _ => hevs⟩

theorem redisOnConnectExn_count (s : RedisConnector)
    (w : RedisWorld) (evs : List Ev) (e : PyExn)
    (hevs : evs.count Ev.disconnectCall = 0) :
    (redisConnectCaught e = true →
      (RedisConnector.onConnectExn s w evs e).2.1.count Ev.disconnectCall
        = 1 ∧
      (RedisConnector.onConnectExn s w evs e).1.is_connected = false ∧
      (RedisConnector.onConnectExn s w evs e).1.redis_conn = none) ∧
    (redisConnectCaught e = false →
      (RedisConnector.onConnectExn s w evs e).2.1.count Ev.disconnectCall
        = 0) := by
  unfold RedisConnector.onConnectExn
  by_cases hce : redisConnectCaught e = true
  · rw [if_pos hce]
    refine ⟨fun _ => ⟨?_, (redisDisconnect_state s w).1,
        (redisDisconnect_state s w).2⟩,
      fun hf => absurd hce (by simp [hf])⟩
    simp [List.count_append, hevs, redisDisconnect_count]
  · rw [if_neg hce]
    exact ⟨fun ht => absurd ht hce, fun _ => hevs⟩

/-- C1 counterexample: for the SQL session, a tunnel failure during the
connect sequence (`SSHTunnelForwarder.start()` raising
`BaseSSHTunnelForwarderError`) is not caught by `DBConnector.connect`'s
`except (pymysql.Error, psycopg2.Error, ValueError)` clause: no
`disconnect()` happens (the dead tunnel object is even retained) and the
propagated exception is the tunnel error itself, not a `ConnectionError`
wrapping it — refuting the claim at this input. -/
theorem C1_counterexample :
    (sqlFreshSsh.connect
        { tunnelOutcome := .startErr (.tunnelForwarderError "ssh down") }
      ).2.1.count Ev.disconnectCall = 0 ∧
    (sqlFreshSsh.connect
        { tunnelOutcome := .startErr (.tunnelForwarderError "ssh down") }
      ).2.2 = some (.tunnelForwarderError "ssh down") ∧
    ((sqlFreshSsh.connect
        { tunnelOutcome := .startErr (.tunnelForwarderError "ssh down") }
      ).2.2.map isConnectionError) = some false ∧
    (sqlFreshSsh.connect
        { tunnelOutcome := .startErr (.tunnelForwarderError "ssh down") }
      ).1.tunnel = some ⟨false⟩ :=
  ⟨rfl, rfl, rfl, rfl⟩

/-- C1 (amended): when `connect()` fails, the failure is re-raised as the
original exception, never wrapped in a `ConnectionError`; `disconnect()` is
invoked (exactly once, leaving the session Disconnected with no retained
client) precisely when the exception is one the session's `except` clause
catches — backend client errors and `ValueError` for the SQL session;
redis, tunnel-forwarder and SSH errors for the cache session.  Any other
failure (an SQL-session tunnel error, or the cache session's falsy ping,
which raises builtin `ConnectionError`) propagates without the unwind. -/
theorem C1_connect_unwind_on_caught_failures :
    (∀ (s : DBConnector) (w : DBWorld) (e : PyExn),
      s.is_connected = false →
      (s.connect w).2.2 = some e →
      ((dbConnectCaught e = true →
          (s.connect w).2.1.count Ev.disconnectCall = 1 ∧
          (s.connect w).1.is_connected = false ∧
          (s.connect w).1.conn = none) ∧
       (dbConnectCaught e = false →
          (s.connect w).2.1.count Ev.disconnectCall = 0))) ∧
    (∀ (s : RedisConnector) (w : RedisWorld) (e : PyExn),
      s.is_connected = false →
      (s.connect w).2.2 = some e →
      ((redisConnectCaught e = true →
          (s.connect w).2.1.count Ev.disconnectCall = 1 ∧
          (s.connect w).1.is_connected = false ∧
          (s.connect w).1.redis_conn = none) ∧
       (redisConnectCaught e = false →
          (s.connect w).2.1.count Ev.disconnectCall = 0))) := by
  constructor
  · intro s w e hc h
    unfold DBConnector.connect at h ⊢
    rw [if_neg (by simp [hc])] at h ⊢
    rcases htp : s.tunnelPhase w with ⟨sa, evsa, r⟩
    rw [htp] at h
    have hevsa : evsa.count Ev.disconnectCall = 0 := by
      have hx := dbTunnelPhase_evs s w
      rw [htp] at hx
      exact hx
    rcases r with _ | e1
    · simp only [] at h ⊢
      unfold DBConnector.clientProbePhase at h ⊢
      by_cases hd : (sa.db_type == "mysql" || sa.db_type == "postgresql")
          = true
      · rw [if_pos hd] at h ⊢
        rcases hcc : w.clientConnect with _ | e2
        · rw [hcc] at h
          rcases hp : w.probe with _ | e3
          · rw [hp] at h
            simp at h
          · rw [hp] at h
            simp only [] at h ⊢
            rw [dbOnConnectExn_exn] at h
            obtain rfl : e3 = e := by injection h
            exact dbOnConnectExn_count _ w _ _
              (by simp [List.count_append, hevsa])
        · rw [hcc] at h
          simp only [] at h ⊢
          rw [dbOnConnectExn_exn] at h
          obtain rfl : e2 = e := by injection h
          exact dbOnConnectExn_count _ w _ _
            (by simp [List.count_append, hevsa])
      · rw [if_neg hd] at h ⊢
        rw [dbOnConnectExn_exn] at h
        obtain rfl :
            PyExn.valueError ("不支持的数据库类型: " ++ sa.db_type) = e := by
          injection h
        exact dbOnConnectExn_count _ w _ _ hevsa
    · simp only [] at h ⊢
      rw [dbOnConnectExn_exn] at h
      obtain rfl : e1 = e := by injection h
      exact dbOnConnectExn_count _ w _ _ hevsa
  · intro s w e hc h
    unfold RedisConnector.connect at h ⊢
    rw [if_neg (by simp [hc])] at h ⊢
    rcases htp : s.tunnelPhase w with ⟨sa, evsa, r⟩
    rw [htp] at h
    have hevsa : evsa.count Ev.disconnectCall = 0 := by
      have hx := redisTunnelPhase_evs s w
      rw [htp] at hx
      exact hx
    rcases r with _ | e1
    · simp only [] at h ⊢
      unfold RedisConnector.pingPhase at h ⊢
      rcases hp : w.ping with e2 | b
      · rw [hp] at h
        simp only [] at h ⊢
        rw [redisOnConnectExn_exn] at h
        obtain rfl : e2 = e := by injection h
        exact redisOnConnectExn_count _ w _ _
          (by simp [List.count_append, hevsa])
      · cases b
        · rw [hp] at h
          simp only [] at h ⊢
          rw [redisOnConnectExn_exn] at h
          obtain rfl : PyExn.connectionError "Redis连接测试失败" = e := by
            injection h
          exact redisOnConnectExn_count _ w _ _
            (by simp [List.count_append, hevsa])
        · rw [hp] at h
          simp at h
    · simp only [] at h ⊢
      rw [redisOnConnectExn_exn] at h
      obtain rfl : e1 = e := by injection h
      exact redisOnConnectExn_count _ w _ _ hevsa

/-- C1 witness: a caught backend failure for each session — the SQL client
connect refused, and a redis error raised by `ping()` — both unwound via
`disconnect()` and re-raised unchanged; plus the cache session's falsy ping,
whose builtin `ConnectionError` propagates without any unwind. -/
theorem C1_connect_unwind_on_caught_failures_witness :
    ((sqlFresh.connect
        { clientConnect := some (.pymysqlError "refused") }).2.1.count
          Ev.disconnectCall = 1 ∧
     (sqlFresh.connect
        { clientConnect := some (.pymysqlError "refused") }).1.is_connected
          = false ∧
     (sqlFresh.connect
        { clientConnect := some (.pymysqlError "refused") }).1.conn
          = none) ∧
    ((redisFresh.connect
        { ping := .error (.redisError "down") }).2.1.count Ev.disconnectCall
          = 1 ∧
     (redisFresh.connect
        { ping := .error (.redisError "down") }).1.is_connected = false ∧
     (redisFresh.connect
        { ping := .error (.redisError "down") }).1.redis_conn = none) ∧
    (redisFresh.connect { ping := .ok false }).2.1.count Ev.disconnectCall
      = 0 :=
  ⟨(C1_connect_unwind_on_caught_failures.1 sqlFresh
      { clientConnect := some (.pymysqlError "refused") }
      (.pymysqlError "refused") rfl rfl).1 rfl,
   (C1_connect_unwind_on_caught_failures.2 redisFresh
      { ping := .error (.redisError "down") }
      (.redisError "down") rfl rfl).1 rfl,
   (C1_connect_unwind_on_caught_failures.2 redisFresh
      { ping := .ok false }
      (.connectionError "Redis连接测试失败") rfl rfl).2 rfl⟩

theorem closeSshTunnel_active (f : Option PyExn) :
    closeSshTunnel (some ⟨true⟩) f = (none, [Ev.tunnelStop]) := by
  rcases f with _ | e <;> rfl

/-- C3 counterexample: for the SQL session, a probe failure (`SELECT 1`
raising `pymysql.Error`) after a successful raw connect does unwind to
Disconnected, but the exception raised to the caller is the backend error
itself, not a `ConnectionError` — refuting the claim at this input. -/
theorem C3_counterexample :
    (sqlFresh.connect { probe := some (.pymysqlError "server has gone away") }
      ).2.2 = some (.pymysqlError "server has gone away") ∧
    ((sqlFresh.connect
        { probe := some (.pymysqlError "server has gone away") }
      ).2.2.map isConnectionError) = some false :=
  ⟨rfl, rfl⟩

/-- C3 (amended): if the liveness probe fails after the raw backend connect
succeeded, then (a) for the SQL session the backend error from `SELECT 1`
unwinds the session to Disconnected — no retained connection or tunnel —
and that backend error (not a `ConnectionError`) is re-raised; (b) for the
cache session a `ping()` that raises a redis error likewise ends
Disconnected with the redis error re-raised; but (c) a `ping()` that
returns falsy raises builtin `ConnectionError` while the client object and
(when tunneling) the live tunnel are retained and `disconnect()` is never
invoked. -/
theorem C3_probe_failure_outcome :
    (∀ (s : DBConnector) (w : DBWorld) (e : PyExn),
      s.is_connected = false → s.conn = none → s.tunnel = none →
      (s.db_type = "mysql" ∨ s.db_type = "postgresql") →
      (s.use_ssh = true → w.tunnelOutcome = .ok) →
      w.clientConnect = none →
      w.probe = some e → backendErr e = true →
      (s.connect w).1.is_connected = false ∧
      (s.connect w).1.conn = none ∧
      (s.connect w).1.tunnel = none ∧
      (s.connect w).2.2 = some e) ∧
    (∀ (s : RedisConnector) (w : RedisWorld) (e : PyExn),
      s.is_connected = false → s.redis_conn = none → s.tunnel = none →
      (s.use_ssh = true → w.tunnelOutcome = .ok) →
      w.ping = .error e → redisConnectCaught e = true →
      (s.connect w).1.is_connected = false ∧
      (s.connect w).1.redis_conn = none ∧
      (s.connect w).1.tunnel = none ∧
      (s.connect w).2.2 = some e) ∧
    (∀ (s : RedisConnector) (w : RedisWorld),
      s.is_connected = false → s.redis_conn = none →
      (s.use_ssh = true → w.tunnelOutcome = .ok) →
      w.ping = .ok false →
      (s.connect w).2.2 = some (.connectionError "Redis连接测试失败") ∧
      (s.connect w).1.redis_conn = some () ∧
      (s.connect w).1.is_connected = false ∧
      (s.connect w).2.1.count Ev.disconnectCall = 0 ∧
      (s.use_ssh = true → (s.connect w).1.tunnel = some ⟨true⟩)) := by
  refine ⟨?_, ?_, ?_⟩
  · intro s w e hc hcn ht hd hok hcc hp hbe
    have hce : dbConnectCaught e = true := by
      cases e <;> simp_all [backendErr, dbConnectCaught]
    have hdb : (s.db_type == "mysql" || s.db_type == "postgresql") = true := by
      rcases hd with h | h <;> simp [h]
    unfold DBConnector.connect
    rw [if_neg (by simp [hc])]
    by_cases hs : s.use_ssh = true
    · have htp : s.tunnelPhase w =
          ({ s with tunnel := some ⟨true⟩ }, [Ev.tunnelStart], none) := by
        unfold DBConnector.tunnelPhase
        rw [if_pos hs, hok hs]
        rfl
      rw [htp]
      simp only []
      unfold DBConnector.clientProbePhase
      rw [if_pos hdb, hcc, hp]
      simp only []
      unfold DBConnector.onConnectExn
      rw [if_pos hce]
      unfold DBConnector.disconnect
      exact ⟨rfl, rfl, by simp [closeSshTunnel_active], rfl⟩
    · have htp : s.tunnelPhase w = (s, [], none) := by
        unfold DBConnector.tunnelPhase
        rw [if_neg hs]
      rw [htp]
      simp only []
      unfold DBConnector.clientProbePhase
      rw [if_pos hdb, hcc, hp]
      simp only []
      unfold DBConnector.onConnectExn
      rw [if_pos hce]
      unfold DBConnector.disconnect
      exact ⟨rfl, rfl, by simp [ht, closeSshTunnel], rfl⟩
  · intro s w e hc hcn ht hok hp hce
    unfold RedisConnector.connect
    rw [if_neg (by simp [hc])]
    by_cases hs : s.use_ssh = true
    · have htp : s.tunnelPhase w =
          ({ s with tunnel := some ⟨true⟩ }, [Ev.tunnelStart], none) := by
        unfold RedisConnector.tunnelPhase
        rw [if_pos hs, hok hs]
        rfl
      rw [htp]
      simp only []
      unfold RedisConnector.pingPhase
      rw [hp]
      simp only []
      unfold RedisConnector.onConnectExn
      rw [if_pos hce]
      unfold RedisConnector.disconnect
      exact ⟨rfl, rfl, by simp [hs, closeSshTunnel_active], rfl⟩
    · have htp : s.tunnelPhase w = (s, [], none) := by
        unfold RedisConnector.tunnelPhase
        rw [if_neg hs]
      rw [htp]
      simp only []
      unfold RedisConnector.pingPhase
      rw [hp]
      simp only []
      unfold RedisConnector.onConnectExn
      rw [if_pos hce]
      unfold RedisConnector.disconnect
      refine ⟨rfl, rfl, ?_, rfl⟩
      simp [hs, ht]
  · intro s w hc hcn hok hp
    unfold RedisConnector.connect
    rw [if_neg (by simp [hc])]
    by_cases hs : s.use_ssh = true
    · have htp : s.tunnelPhase w =
          ({ s with tunnel := some ⟨true⟩ }, [Ev.tunnelStart], none) := by
        unfold RedisConnector.tunnelPhase
        rw [if_pos hs, hok hs]
        rfl
      rw [htp]
      simp only []
      unfold RedisConnector.pingPhase
      rw [hp]
      simp only []
      unfold RedisConnector.onConnectExn
      rw [if_neg (by simp [redisConnectCaught])]
      exact ⟨rfl, rfl, hc, rfl, fun _ => rfl⟩
    · have htp : s.tunnelPhase w = (s, [], none) := by
        unfold RedisConnector.tunnelPhase
        rw [if_neg hs]
      rw [htp]
      simp only []
      unfold RedisConnector.pingPhase
      rw [hp]
      simp only []
      unfold RedisConnector.onConnectExn
      rw [if_neg (by simp [redisConnectCaught])]
      exact ⟨rfl, rfl, hc, rfl, fun hss => absurd hss hs⟩

/-- C3 witness: the SQL fixture with a failing `SELECT 1`, and the cache
fixture with a ping that raises a redis error and with a ping that returns
falsy. -/
theorem C3_probe_failure_outcome_witness :
    ((sqlFresh.connect { probe := some (.pymysqlError "probe dead") }
       ).1.is_connected = false ∧
     (sqlFresh.connect { probe := some (.pymysqlError "probe dead") }
       ).1.conn = none ∧
     (sqlFresh.connect { probe := some (.pymysqlError "probe dead") }
       ).1.tunnel = none ∧
     (sqlFresh.connect { probe := some (.pymysqlError "probe dead") }
       ).2.2 = some (.pymysqlError "probe dead")) ∧
    ((redisFresh.connect { ping := .error (.redisError "timeout") }
       ).1.is_connected = false ∧
     (redisFresh.connect { ping := .error (.redisError "timeout") }
       ).1.redis_conn = none ∧
     (redisFresh.connect { ping := .error (.redisError "timeout") }
       ).1.tunnel = none ∧
     (redisFresh.connect { ping := .error (.redisError "timeout") }
       ).2.2 = some (.redisError "timeout")) ∧
    ((redisFresh.connect { ping := .ok false }).2.2 =
        some (.connectionError "Redis连接测试失败") ∧
     (redisFresh.connect { ping := .ok false }).1.redis_conn = some () ∧
     (redisFresh.connect { ping := .ok false }).1.is_connected = false ∧
     (redisFresh.connect { ping := .ok false }).2.1.count Ev.disconnectCall
       = 0 ∧
     (redisFresh.use_ssh = true →
       (redisFresh.connect { ping := .ok false }).1.tunnel = some ⟨true⟩)) :=
  ⟨C3_probe_failure_outcome.1 sqlFresh
     { probe := some (.pymysqlError "probe dead") }
     (.pymysqlError "probe dead") rfl rfl rfl (Or.inl rfl) (fun _ => rfl)
     rfl rfl rfl,
   C3_probe_failure_outcome.2.1 redisFresh
     { ping := .error (.redisError "timeout") } (.redisError "timeout")
     rfl rfl rfl (fun _ => rfl) rfl rfl,
   C3_probe_failure_outcome.2.2 redisFresh { ping := .ok false }
     rfl rfl (fun _ => rfl) rfl⟩

/-- C6 counterexample: on a connected SQL session, a failing statement whose
rollback also fails propagates the rollback error in place of the original
backend error — the source calls `self.conn.rollback()` outside any
try/except — refuting "a rollback failure is logged, not raised, and does
not replace the original error" (and no `QueryError` wrapper carrying the
statement text is ever constructed). -/
theorem C6_counterexample :
    sqlLive.execute_update
        { execFail := some (.pymysqlError "duplicate key"),
          rollbackFail := some (.pymysqlError "rollback failed") }
        "UPDATE t SET x = 1" =
      (sqlLive, [Ev.cursorExec, Ev.rollback],
       .error (.pymysqlError "rollback failed")) :=
  rfl

/-- C6 (amended): on a connected SQL session, when statement execution (or,
for `execute_update`, the commit) fails with a backend error, a rollback is
attempted and the call raises instead of returning rows or a row count: the
original backend error re-raised unchanged (no wrapper carrying the
statement text) when the rollback succeeds, and the rollback's own error in
its place when the rollback fails. -/
theorem C6_query_failure_rollback :
    (∀ (s : DBConnector) (w : QueryWorld) (sql : String) (e : PyExn),
      s.is_connected = true → s.conn = some true →
      w.execFail = some e → backendErr e = true →
      s.execute_query w sql =
        (s, [Ev.cursorExec, Ev.rollback], .error (w.rollbackFail.getD e)) ∧
      s.execute_update w sql =
        (s, [Ev.cursorExec, Ev.rollback],
         .error (w.rollbackFail.getD e))) ∧
    (∀ (s : DBConnector) (w : QueryWorld) (sql : String) (e : PyExn),
      s.is_connected = true → s.conn = some true →
      w.execFail = none → w.commitFail = some e → backendErr e = true →
      s.execute_update w sql =
        (s, [Ev.cursorExec, Ev.commit, Ev.rollback],
         .error (w.rollbackFail.getD e))) := by
  constructor
  · intro s w sql e hc hcn hex hbe
    constructor
    · unfold DBConnector.execute_query
      rw [if_neg (by simp [hc, hcn]), hex]
      simp only []
      unfold DBConnector.onQueryExn
      rw [if_pos hbe]
      rcases hr : w.rollbackFail with _ | re <;> rfl
    · unfold DBConnector.execute_update
      rw [if_neg (by simp [hc, hcn]), hex]
      simp only []
      unfold DBConnector.onQueryExn
      rw [if_pos hbe]
      rcases hr : w.rollbackFail with _ | re <;> rfl
  · intro s w sql e hc hcn hex hcm hbe
    unfold DBConnector.execute_update
    rw [if_neg (by simp [hc, hcn]), hex, hcm]
    simp only []
    unfold DBConnector.onQueryExn
    rw [if_pos hbe]
    rcases hr : w.rollbackFail with _ | re <;> rfl

/-- C6 witness: the connected SQL fixture with a failing statement whose
rollback succeeds (for both operations) and with a failing commit. -/
theorem C6_query_failure_rollback_witness :
    (sqlLive.execute_query { execFail := some (.pymysqlError "bad sql") }
        "SELECT x FROM t" =
      (sqlLive, [Ev.cursorExec, Ev.rollback],
       .error (.pymysqlError "bad sql")) ∧
     sqlLive.execute_update { execFail := some (.pymysqlError "bad sql") }
        "DELETE FROM t" =
      (sqlLive, [Ev.cursorExec, Ev.rollback],
       .error (.pymysqlError "bad sql"))) ∧
    sqlLive.execute_update
        { commitFail := some (.pymysqlError "commit refused") }
        "UPDATE t SET x = 1" =
      (sqlLive, [Ev.cursorExec, Ev.commit, Ev.rollback],
       .error (.pymysqlError "commit refused")) :=
  ⟨⟨(C6_query_failure_rollback.1 sqlLive
       { execFail := some (.pymysqlError "bad sql") } "SELECT x FROM t"
       (.pymysqlError "bad sql") rfl rfl rfl rfl).1,
    (C6_query_failure_rollback.1 sqlLive
       { execFail := some (.pymysqlError "bad sql") } "DELETE FROM t"
       (.pymysqlError "bad sql") rfl rfl rfl rfl).2⟩,
   C6_query_failure_rollback.2 sqlLive
     { commitFail := some (.pymysqlError "commit refused") }
     "UPDATE t SET x = 1" (.pymysqlError "commit refused")
     rfl rfl rfl rfl rfl⟩

/-- C10 counterexample: a `MySQL.execute` run in which the statement
executes and commits successfully but `cursor.close()` raises: `close()`
never reaches `conn.close()`, so the connection opened by the call stays
open when the call completes — refuting "on every path (success or failure)
the cursor and connection opened by the call are closed before the call
returns". -/
theorem C10_counterexample :
    (MySQL.execute { conn := none, cursor := none }
        { cursorCloseFail := some (.pymysqlError "close failed") }
        "SELECT 1").1.conn = some true ∧
    Ev.connClose ∉ (MySQL.execute { conn := none, cursor := none }
        { cursorCloseFail := some (.pymysqlError "close failed") }
        "SELECT 1").2.1 ∧
    (MySQL.execute { conn := none, cursor := none }
        { cursorCloseFail := some (.pymysqlError "close failed") }
        "SELECT 1").2.2 = .error (.pymysqlError "close failed") := by
  refine ⟨rfl, ?_, rfl⟩
  decide

/-- C10 (amended): provided the two close calls themselves succeed,
`MySQL.execute` behaves as claimed: on a successful execute-and-commit it
returns `cursor.lastrowid` when the stripped lowercased statement starts
with `insert into` and `cursor.fetchall()` otherwise, and on every path —
success, statement failure, commit failure — the cursor and the connection
opened by the call are closed before the call returns.  A failing
`cursor.close()`, however, skips `conn.close()` and leaves the connection
open (see the counterexample). -/
theorem C10_execute_result_and_cleanup :
    ∀ (s : MySQLState) (w : MySQLWorld) (sql : String),
      w.connectFail = none → w.cursorCloseFail = none →
      w.connCloseFail = none →
      ((w.execFail = none → w.commitFail = none →
        MySQL.execute s w sql =
          ({ conn := some false, cursor := some false },
           [Ev.clientConnect, Ev.cursorExec, Ev.commit] ++
             (if isInsertStatement sql then []
              else [Ev.fetch]) ++ [Ev.cursorClose, Ev.connClose],
           .ok (if isInsertStatement sql then
                  .rowId w.lastrowid
                else .rows w.fetchallRows))) ∧
       (∀ e, w.execFail = some e →
        MySQL.execute s w sql =
          ({ conn := some false, cursor := some false },
           [Ev.clientConnect, Ev.cursorExec, Ev.rollback, Ev.cursorClose,
            Ev.connClose],
           .error (w.rollbackFail.getD e))) ∧
       (∀ e, w.execFail = none → w.commitFail = some e →
        MySQL.execute s w sql =
          ({ conn := some false, cursor := some false },
           [Ev.clientConnect, Ev.cursorExec, Ev.commit, Ev.rollback,
            Ev.cursorClose, Ev.connClose],
           .error (w.rollbackFail.getD e)))) := by
  intro s w sql hcf hccf hconnf
  refine ⟨?_, ?_, ?_⟩
  · intro hex hcm
    by_cases hins : isInsertStatement sql = true <;>
      simp [MySQL.execute, MySQL.close, hcf, hex, hcm, hccf, hconnf, hins]
  · intro e hex
    rcases hr : w.rollbackFail with _ | re <;>
      simp [MySQL.execute, MySQL.exceptPath, MySQL.finallyRaise, MySQL.close,
        hcf, hex, hccf, hconnf, hr]
  · intro e hex hcm
    rcases hr : w.rollbackFail with _ | re <;>
      simp [MySQL.execute, MySQL.exceptPath, MySQL.finallyRaise, MySQL.close,
        hcf, hex, hcm, hccf, hconnf, hr]

/-- C10 witness: a fresh `MySQL` object running an INSERT (returning the
last row id), a SELECT (returning the fetched rows), and a failing DELETE
(raising the backend error after the rollback), each closing cursor and
connection. -/
theorem C10_execute_result_and_cleanup_witness :
    MySQL.execute { conn := none, cursor := none }
        { lastrowid := 42,
          fetchallRows := [[("id", "1")]] }
        "INSERT INTO t (x) VALUES (1)" =
      ({ conn := some false, cursor := some false },
       [Ev.clientConnect, Ev.cursorExec, Ev.commit, Ev.cursorClose,
        Ev.connClose],
       .ok (.rowId 42)) ∧
    MySQL.execute { conn := none, cursor := none }
        { lastrowid := 42,
          fetchallRows := [[("id", "1")]] }
        "SELECT id FROM t" =
      ({ conn := some false, cursor := some false },
       [Ev.clientConnect, Ev.cursorExec, Ev.commit, Ev.fetch, Ev.cursorClose,
        Ev.connClose],
       .ok (.rows [[("id", "1")]])) ∧
    MySQL.execute { conn := none, cursor := none }
        { execFail := some (.pymysqlError "syntax error") }
        "DELETE FROM t" =
      ({ conn := some false, cursor := some false },
       [Ev.clientConnect, Ev.cursorExec, Ev.rollback, Ev.cursorClose,
        Ev.connClose],
       .error (.pymysqlError "syntax error")) :=
  ⟨(C10_execute_result_and_cleanup { conn := none, cursor := none }
      { lastrowid := 42, fetchallRows := [[("id", "1")]] }
      "INSERT INTO t (x) VALUES (1)" rfl rfl rfl).1 rfl rfl,
   (C10_execute_result_and_cleanup { conn := none, cursor := none }
      { lastrowid := 42, fetchallRows := [[("id", "1")]] }
      "SELECT id FROM t" rfl rfl rfl).1 rfl rfl,
   (C10_execute_result_and_cleanup { conn := none, cursor := none }
      { execFail := some (.pymysqlError "syntax error") }
      "DELETE FROM t" rfl rfl rfl).2.1 (.pymysqlError "syntax error") rfl⟩
